import Mathlib

/-!
# SmartCart-AI agent core: a shallow embedding in Lean 4

This file embeds, in Lean, the core of the SmartCart-AI shopping-agent
backend (`src/backend`): the Safety Guard (`checkout_guard.py`), the oracle
validation and retry logic (`gemini_helper.py`, `ai_vision.py`), the element
registry and target resolver (`vision_utils.py`, `amazon_selectors.py`),
the mission state and its operations (`agent_state.py`), the graph nodes
(`agent_nodes.py`) and the routing function (`agent_graph.py`).

External collaborators (the live browser page, the Gemini vision model and
the checkout classifier) are modelled as explicit environment records: each
embedded function receives the collaborator's answers as data instead of
performing I/O.  Python dictionaries with optional keys become structures
with `Option` fields, Python floats used only in order comparisons become
`Rat`, and in-place state mutation becomes explicit state passing.
-/

namespace SmartCart

/-- Character-list test `needle` starts `haystack`, used to model Python's
substring operator `in` on strings. -/
def charsStart : List Char → List Char → Bool
  | [], _ => true
  | _ :: _, [] => false
  | a :: as, b :: bs => a == b && charsStart as bs

/-- Character-list test `needle` occurs somewhere inside `haystack`. -/
def charsInside (needle : List Char) : List Char → Bool
  | [] => charsStart needle []
  | b :: bs => charsStart needle (b :: bs) || charsInside needle bs

/-- `strContains haystack needle` models Python's `needle in haystack` on
strings: substring containment. -/
def strContains (haystack needle : String) : Bool :=
  charsInside needle.toList haystack.toList

/-- ASCII lower-casing of one character, modelling Python's `str.lower` on
the ASCII texts this code handles. -/
def pyLowerChar (c : Char) : Char :=
  if c.toNat ≥ 65 && c.toNat ≤ 90 then Char.ofNat (c.toNat + 32) else c

/-- `pyLower s` models Python's `s.lower()`. -/
def pyLower (s : String) : List Char :=
  s.toList.map pyLowerChar

/-- `strInLower needle haystack` models Python's
`needle in haystack.lower()`. -/
def strInLower (needle haystack : String) : Bool :=
  charsInside needle.toList (pyLower haystack)

/-!
## Safety Guard (`checkout_guard.py`)

`is_checkout_page` wraps the external checkout classifier (with a per-URL
TTL cache and an on-exception fallback); its result dictionary is modelled
by `Detection`, the classifier collaborator's answer, supplied by the
environment.  `check_before_click` is embedded as a pure function of that
answer and of the element text.
-/

/-- Result of the checkout-page classifier
(`vision_analyzer.detect_checkout_page` as consumed by
`checkout_guard.is_checkout_page`); `.get` defaults from the source are
baked into the field types. -/
structure Detection where
  is_checkout : Bool
  confidence : Rat
  detected_keywords : List String
  total_price : Option String
  reasoning : String
  deriving Repr, DecidableEq

/-- The safety verdict returned by `check_before_click`
(`checkout_guard.py` lines 143-148). -/
structure Verdict where
  safe : Bool
  requires_approval : Bool
  reason : String
  checkout_info : Option Detection
  deriving Repr, DecidableEq

/-- The fixed purchase-intent phrase list of `check_before_click`
(`checkout_guard.py` lines 110-121). -/
def high_risk_keywords : List String :=
  ["place order", "complete purchase", "confirm order", "buy now",
   "complete order", "submit order", "pay now", "confirm purchase",
   "checkout", "confirm payment"]

/-- `is_risky_element` from `check_before_click` (`checkout_guard.py`
lines 123-124): some high-risk keyword is a substring of the lowercased
element text. -/
def isRiskyElement (element_text : String) : Bool :=
  high_risk_keywords.any (fun k => strInLower k element_text)

/-- `check_before_click` (`checkout_guard.py` lines 84-155), with the
classifier's answer `detection` passed in place of the
`is_checkout_page(page, screenshot)` call. -/
def check_before_click (detection : Detection) (element_text : String) :
    Verdict :=
  let is_risky_element := isRiskyElement element_text
  -- `requires_approval = False; reason = "Safe to proceed"` then the
  -- if / elif chain of lines 130-141, folded into one pair:
  let rr : Bool × String :=
    if detection.is_checkout && decide (detection.confidence > mkRat 7 10) then
      if is_risky_element then
        (true, "Checkout page detected with purchase button: '"
          ++ element_text ++ "'")
      else
        (false, "On checkout page but element appears safe")
    else if is_risky_element then
      (true, "Potentially risky action: clicking '" ++ element_text ++ "'")
    else
      (false, "Safe to proceed")
  { safe := !rr.1
    requires_approval := rr.1
    reason := rr.2
    checkout_info := if detection.is_checkout then some detection else none }

example :
    (check_before_click ⟨true, mkRat 9 10, [], none, ""⟩ "Buy Now").requires_approval
      = true := by decide

example :
    (check_before_click ⟨true, mkRat 9 10, [], none, ""⟩ "Continue shopping").requires_approval
      = false := by decide

example :
    (check_before_click ⟨true, mkRat 9 10, [], none, ""⟩ "Place your order").requires_approval
      = false := by decide

/-- `extract_order_summary` (`checkout_guard.py` lines 165-191); the
`{:.0%}` float format is modelled by rounding the rational percentage. -/
def extract_order_summary (checkout_info : Detection) : String :=
  let l1 := ["=== ORDER CONFIRMATION REQUIRED ==="]
  let l2 := match checkout_info.total_price with
    | some p => if p ≠ "" then ["Total Price: " ++ p] else []
    | none => []
  let l3 := if checkout_info.detected_keywords ≠ [] then
      ["Detected: " ++ String.intercalate ", " checkout_info.detected_keywords]
    else []
  let l4 := ["\nConfidence: " ++ toString (round (checkout_info.confidence * 100) : Int) ++ "%"]
  let l5 := if checkout_info.reasoning ≠ "" then
      ["Reason: " ++ checkout_info.reasoning] else []
  let l6 := ["\n⚠️  This action will complete a purchase!",
             "Please review and approve to continue."]
  String.intercalate "\n" (l1 ++ l2 ++ l3 ++ l4 ++ l5 ++ l6)

/-!
## Oracle output and validation (`gemini_helper.py`, `ai_vision.py`)

The Decision Oracle's parsed JSON output is a Python dict; `RawAction`
models it with `Option` fields (`none` standing for an absent key or a
JSON `null` value, which the source treats alike through `.get` and
truthiness checks).
-/

/-- Parsed oracle output (the action dictionary of `gemini_helper.py`). -/
structure RawAction where
  action : Option String
  target : Option Nat
  value : Option String
  reasoning : Option String
  deriving Repr, DecidableEq

/-- Python truthiness of `action.get('target')`: present and non-zero. -/
def truthyTarget (t : Option Nat) : Bool :=
  match t with
  | some n => n ≠ 0
  | none => false

/-- Python truthiness of `action.get('value')`: present and non-empty. -/
def truthyValue (v : Option String) : Bool :=
  match v with
  | some s => s ≠ ""
  | none => false

/-- `validate_action` (`gemini_helper.py` lines 219-250).  It checks only
field presence, the action kind, and truthiness of `value` / `target` for
`type` / `click`; it does not consult the label map. -/
def validate_action (a : RawAction) : Bool :=
  -- required fields 'action' and 'reasoning'
  if !(a.action.isSome && a.reasoning.isSome) then false
  -- action['action'] not in valid_actions
  else if !(["click", "type", "scroll", "done"].any
      (fun v => a.action == some v)) then false
  -- type action requires value
  else if a.action == some "type" && !truthyValue a.value then false
  -- click action requires target
  else if a.action == some "click" && !truthyTarget a.target then false
  else true

/-- The fallback action built by `VisionAnalyzer.analyze_page` when every
attempt fails (`ai_vision.py` lines 186-192). -/
def fallbackDone (err : String) : RawAction :=
  { action := some "done"
    target := none
    value := none
    reasoning := some ("Error during analysis: " ++ err) }

/-- One retry attempt of `analyze_page` (`ai_vision.py` lines 148-178):
the environment supplies the generate-and-parse outcome (`.error` for a
Gemini exception or a JSON parse failure); a parsed action failing
`validate_action` raises `ValueError("Invalid action structure")`. -/
def attemptResult (raw : Except String RawAction) : Except String RawAction :=
  match raw with
  | .ok a => if validate_action a then .ok a else .error "Invalid action structure"
  | .error e => .error e

/-- `VisionAnalyzer.analyze_page` (`ai_vision.py` lines 102-192): up to
three attempts (`max_retries = 3`) with backoff; the first success is
returned; if the third attempt also fails, the outer handler returns the
safe fallback `done` action instead of raising. -/
def analyze_page (a1 a2 a3 : Except String RawAction) : RawAction :=
  match attemptResult a1 with
  | .ok act => act
  | .error _ =>
    match attemptResult a2 with
    | .ok act => act
    | .error _ =>
      match attemptResult a3 with
      | .ok act => act
      | .error e => fallbackDone e

/-!
## Element descriptors and mission state (`vision_utils.py`, `agent_state.py`)
-/

/-- One entry of the label map built by `inject_markers`
(`vision_utils.py` lines 176-190); absent string attributes are the empty
string, exactly as the JavaScript `|| ''` defaults produce. -/
structure ElementInfo where
  etype : String
  text : String
  selector : String
  selectors : List String
  aria_label : String
  placeholder : String
  href : String
  name : String
  input_type : String
  posX : Int
  posY : Int
  deriving Repr, DecidableEq

/-- The all-defaults element info, modelling the empty dict
`markers_map.get(target, {})` falls back to in `agent_nodes.py` line 267. -/
def emptyElementInfo : ElementInfo :=
  { etype := "", text := "", selector := "", selectors := []
    aria_label := "", placeholder := "", href := "", name := ""
    input_type := "", posX := 0, posY := 0 }

/-- Lookup of a marker number in the label map
(`markers_map[marker_number]` / `marker_number in markers_map`).  The
Python dict is modelled as an association list with distinct keys. -/
def lookupMarker (m : List (Nat × ElementInfo)) (k : Nat) :
    Option ElementInfo :=
  match m.find? (fun p => p.1 == k) with
  | some p => some p.2
  | none => none

/-- `AgentState` (`agent_state.py` lines 13-45).  `messages` keeps only the
message contents (the `BaseMessage` wrappers carry no further state used by
the core). -/
structure AgentState where
  messages : List String
  current_url : String
  screenshot_base64 : String
  markers_map : List (Nat × ElementInfo)
  last_action : Option RawAction
  action_history : List RawAction
  user_goal : String
  session_id : String
  status : String
  iterations : Nat
  max_iterations : Nat
  error : Option String
  approval_required : Bool
  approval_granted : Bool
  deriving Repr, DecidableEq

/-- `create_initial_state` (`agent_state.py` lines 48-83). -/
def create_initial_state (user_goal session_id : String)
    (initial_url : String := "") (max_iterations : Nat := 20) : AgentState :=
  { messages := ["Goal: " ++ user_goal]
    current_url := initial_url
    screenshot_base64 := ""
    markers_map := []
    last_action := none
    action_history := []
    user_goal := user_goal
    session_id := session_id
    status := "planning"
    iterations := 0
    max_iterations := max_iterations
    error := none
    approval_required := false
    approval_granted := false }

/-- `add_message` (`agent_state.py` lines 86-98). -/
def add_message (s : AgentState) (m : String) : AgentState :=
  { s with messages := s.messages ++ [m] }

/-- `add_action` (`agent_state.py` lines 101-114): sets `last_action` and
appends to the ordered history. -/
def add_action (s : AgentState) (a : RawAction) : AgentState :=
  { s with last_action := some a, action_history := s.action_history ++ [a] }

/-- `is_complete` (`agent_state.py` lines 117-136). -/
def is_complete (s : AgentState) : Bool :=
  if s.status == "complete" then true
  else
    match s.last_action with
    | some a => a.action == some "done"
    | none => false

/-- `should_stop` (`agent_state.py` lines 139-170): complete, iteration
budget exhausted, error, or waiting for an ungranted approval. -/
def should_stop (s : AgentState) : Bool :=
  if is_complete s then true
  else if decide (s.iterations ≥ s.max_iterations) then true
  else if s.status == "error" then true
  else if s.approval_required && !s.approval_granted then true
  else false

/-- `increment_iteration` (`agent_state.py` lines 173-187). -/
def increment_iteration (s : AgentState) : AgentState :=
  { s with iterations := s.iterations + 1 }

/-- `set_status` (`agent_state.py` lines 190-209). -/
def set_status (s : AgentState) (status : String) : AgentState :=
  { s with status := status }

/-- `set_error` (`agent_state.py` lines 212-228). -/
def set_error (s : AgentState) (error : String) : AgentState :=
  { s with error := some error, status := "error" }

/-- `get_recent_actions` (`agent_state.py` lines 231-242): Python's
`history[-count:]`. -/
def get_recent_actions (s : AgentState) (count : Nat := 3) :
    List RawAction :=
  s.action_history.drop (s.action_history.length - count)

/-- `route_after_action` (`agent_graph.py` lines 63-92): the conditional
edge out of the action node. -/
def route_after_action (s : AgentState) : String :=
  if should_stop s then "end" else "continue"

/-!
## Target Resolver (`vision_utils.get_element_by_marker`)

The live page is modelled by a probe environment: for each CSS selector it
answers whether `wait_for_selector(state="visible", timeout=3000)`
succeeds, whether `query_selector` finds an element (an exception from
either call counting as failure), and the element's `is_visible()` /
`is_enabled()` answers.
-/

/-- The page's answers for one selector. -/
structure SelProbe where
  waitVisible : Bool
  present : Bool
  visible : Bool
  enabled : Bool
  deriving Repr, DecidableEq

/-- The page, as seen through selector probes. -/
def PageEnv : Type := String → SelProbe

/-- One iteration of the resolver's main loop (`vision_utils.py` lines
276-304): wait for presence+visibility, re-query, then require
`is_visible` and `is_enabled`; any failure falls through to the next
candidate. -/
def selectorPasses (env : PageEnv) (sel : String) : Bool :=
  (env sel).waitVisible && (env sel).present
    && ((env sel).visible && (env sel).enabled)

/-- The resolver's main pass: first candidate selector that passes the
strict checks. -/
def firstPassing (env : PageEnv) : List String → Option String
  | [] => none
  | sel :: rest =>
    if selectorPasses env sel then some sel else firstPassing env rest

/-- `get_element_by_marker` (`vision_utils.py` lines 238-321).  After the
main pass fails, the final best-effort pass (lines 306-316) re-queries
only `selectors[0]` and returns it if that element exists at all. -/
def get_element_by_marker (env : PageEnv)
    (markers_map : List (Nat × ElementInfo)) (marker_number : Nat) :
    Option String :=
  match lookupMarker markers_map marker_number with
  | none => none
  | some element_info =>
    let selectors0 :=
      if element_info.selectors.isEmpty then [element_info.selector]
      else element_info.selectors
    let selectors := selectors0.filter (fun s => s ≠ "")
    match selectors with
    | [] => none
    | first_selector :: _ =>
      match firstPassing env selectors with
      | some sel => some sel
      | none =>
        if (env first_selector).present then some first_selector else none

/-!
## Element Registry (`vision_utils.inject_markers`)

The JavaScript injected by `inject_markers` walks the result of
`document.querySelectorAll` over the interactive-element selector union.
The DOM is modelled as the list of elements that query returns, in
document order, each carrying the attributes, geometry and computed style
the script reads.  Marker `<div>` creation is a pure page side effect with
no influence on the returned map and is not modelled.
-/

/-- One DOM element as seen by the marker script.  `eid` is object
identity (for the `processedElements` set); `hasParent`/`childIndex`
describe `parentElement` and the element's 1-based index among its
parent's children. -/
structure DomElement where
  eid : Nat
  tagName : String
  idAttr : String
  nameAttr : String
  dataAttrName : String
  dataAttrValue : String
  ariaLabel : String
  classes : List String
  typeAttr : String
  innerText : String
  valueAttr : String
  placeholder : String
  href : String
  hasParent : Bool
  childIndex : Nat
  rectWidth : Rat
  rectHeight : Rat
  rectTop : Rat
  rectBottom : Rat
  rectLeft : Rat
  rectRight : Rat
  cssVisibility : String
  cssDisplay : String
  deriving Repr, DecidableEq

/-- Window geometry read by the script. -/
structure Viewport where
  innerWidth : Rat
  innerHeight : Rat
  scrollTop : Rat
  scrollLeft : Rat
  deriving Repr, DecidableEq

/-- The `isVisible` check of the marker script (`vision_utils.py` lines
78-90): non-zero size, intersecting the viewport, not hidden by CSS. -/
def isVisible (vp : Viewport) (e : DomElement) : Bool :=
  decide (e.rectWidth > 0) && decide (e.rectHeight > 0)
    && decide (e.rectTop < vp.innerHeight) && decide (e.rectBottom > 0)
    && decide (e.rectLeft < vp.innerWidth) && decide (e.rectRight > 0)
    && (e.cssVisibility != "hidden") && (e.cssDisplay != "none")

/-- Candidate-selector generation of the marker script (`vision_utils.py`
lines 123-170): id, name, first data- attribute, aria-label, up to two
classes, type, then an nth-child fallback, in priority order. -/
def genSelectors (e : DomElement) : List String :=
  let tag := String.mk (pyLower e.tagName)
  (if e.idAttr ≠ "" then ["#" ++ e.idAttr] else [])
  ++ (if e.nameAttr ≠ "" then
        [tag ++ "[name=\"" ++ e.nameAttr ++ "\"]"] else [])
  ++ (if e.dataAttrName ≠ "" then
        [tag ++ "[" ++ e.dataAttrName ++ "=\"" ++ e.dataAttrValue ++ "\"]"]
      else [])
  ++ (if e.ariaLabel ≠ "" then
        [tag ++ "[aria-label=\"" ++ e.ariaLabel ++ "\"]"] else [])
  ++ (let cs := (e.classes.filter
        (fun c => !c.startsWith "ai-marker")).take 2
      if cs ≠ [] then [tag ++ "." ++ String.intercalate "." cs] else [])
  ++ (if e.typeAttr ≠ "" then
        [tag ++ "[type=\"" ++ e.typeAttr ++ "\"]"] else [])
  ++ (if e.hasParent then
        [tag ++ ":nth-child(" ++ toString e.childIndex ++ ")"] else [])

/-- The element-information record stored under each marker number
(`vision_utils.py` lines 172-190). -/
def buildInfo (vp : Viewport) (e : DomElement) : ElementInfo :=
  let selectors := genSelectors e
  let tag := String.mk (pyLower e.tagName)
  { etype := tag
    text :=
      let t := (e.innerText.trim).take 100
      if t ≠ "" then t else e.valueAttr
    selector := selectors.headD tag
    selectors := selectors
    aria_label := e.ariaLabel
    placeholder := e.placeholder
    href := e.href
    name := e.nameAttr
    input_type := e.typeAttr
    posX := round (e.rectLeft + vp.scrollLeft)
    posY := round (e.rectTop + vp.scrollTop) }

/-- The `elements.forEach` loop of the marker script (`vision_utils.py`
lines 74-193): skip already-processed elements, skip invisible ones
(without marking them processed), number the rest consecutively starting
from `markerNumber = 1`. -/
def injectLoop (vp : Viewport) :
    List DomElement → List Nat → Nat → List (Nat × ElementInfo)
  | [], _, _ => []
  | e :: rest, processed, n =>
    if e.eid ∈ processed then injectLoop vp rest processed n
    else if isVisible vp e then
      (n, buildInfo vp e) :: injectLoop vp rest (e.eid :: processed) (n + 1)
    else injectLoop vp rest processed n

/-- The document-order subsequence of elements the marker script accepts
(visible and not previously processed); a specification-side companion of
`injectLoop` used to state traversal order. -/
def acceptedElems (vp : Viewport) :
    List DomElement → List Nat → List DomElement
  | [], _ => []
  | e :: rest, processed =>
    if e.eid ∈ processed then acceptedElems vp rest processed
    else if isVisible vp e then
      e :: acceptedElems vp rest (e.eid :: processed)
    else acceptedElems vp rest processed

/-!
## Amazon selector pack (`amazon_selectors.py`)
-/

/-- `AMAZON_SELECTORS` (`amazon_selectors.py` lines 13-63), accessed
through `get_amazon_element_selectors`. -/
def get_amazon_element_selectors (element_type : String) : List String :=
  if element_type = "search_box" then
    ["#twotabsearchtextbox", "input[name='field-keywords']",
     "input[type='text'][aria-label*='Search']", "input#nav-search-keywords",
     "input.nav-input"]
  else if element_type = "search_button" then
    ["#nav-search-submit-button", "input[type='submit'][value='Go']",
     "input.nav-input[type='submit']", "button[type='submit'][aria-label*='Go']",
     "#nav-search-bar-form input[type='submit']"]
  else if element_type = "product_link" then
    ["h2 a.a-link-normal", ".s-result-item h2 a",
     "div[data-component-type='s-search-result'] h2 a", "a.s-no-outline",
     ".s-product-image-container a"]
  else if element_type = "add_to_cart" then
    ["#add-to-cart-button", "input#add-to-cart-button",
     "button[name='submit.add-to-cart']", "#submit.add-to-cart-announce"]
  else if element_type = "buy_now" then
    ["#buy-now-button", "input#buy-now-button", "button[name='submit.buy-now']"]
  else if element_type = "price" then
    [".a-price-whole", "span.a-price", ".a-offscreen",
     "#priceblock_ourprice", "#priceblock_dealprice"]
  else if element_type = "next_page" then
    [".s-pagination-next", "a:contains('Next')", "li.a-last a"]
  else if element_type = "filter_options" then
    ["#s-refinements a", ".a-checkbox", "li.a-spacing-micro a"]
  else []

/-- The `urlparse(url).netloc` extraction used by `is_amazon_url`:
the host part between `://` and the next `/`. -/
def netlocOf (url : String) : String :=
  match url.splitOn "://" with
  | _ :: rest :: _ => rest.takeWhile (fun c => c ≠ '/')
  | _ => ""

/-- `is_amazon_url` (`amazon_selectors.py` lines 66-105). -/
def is_amazon_url (url : String) : Bool :=
  let domain := String.mk (pyLower (netlocOf url))
  let amazon_domains :=
    ["amazon.com", "amazon.co.uk", "amazon.ca", "amazon.de", "amazon.fr",
     "amazon.it", "amazon.es", "amazon.in", "amazon.co.jp", "amazon.com.au",
     "amazon.com.mx", "amazon.com.br"]
  amazon_domains.any (fun d => domain.endsWith d || domain == d)

/-- `build_xpath_selector` (`amazon_selectors.py` lines 147-194). -/
def build_xpath_selector (info : ElementInfo) : Option String :=
  let element_type := String.mk (pyLower info.etype)
  let text := info.text.trim
  let aria_label := info.aria_label.trim
  let placeholder := info.placeholder.trim
  let xpath_parts :=
    (if text ≠ "" && decide (text.length < 50) then
      ["contains(text(), '" ++ text.take 30 ++ "')"] else [])
    ++ (if aria_label ≠ "" then ["@aria-label='" ++ aria_label ++ "'"] else [])
    ++ (if placeholder ≠ "" then ["@placeholder='" ++ placeholder ++ "'"] else [])
    ++ (if info.name ≠ "" then ["@name='" ++ info.name ++ "'"] else [])
  if xpath_parts ≠ [] then
    some ("//" ++ element_type ++ "["
      ++ String.intercalate " or " xpath_parts ++ "]")
  else none

/-- The order-preserving deduplication of
`enhance_element_with_amazon_selectors` (`amazon_selectors.py` lines
249-255): drop falsy entries and entries already seen. -/
def dedupSelectors : List String → List String → List String
  | [], _ => []
  | s :: rest, seen =>
    if s ≠ "" && s ∉ seen then s :: dedupSelectors rest (s :: seen)
    else dedupSelectors rest seen

/-- `enhance_element_with_amazon_selectors` (`amazon_selectors.py` lines
197-261). -/
def enhance_element_with_amazon_selectors (info : ElementInfo)
    (page_url : String) : ElementInfo :=
  if !is_amazon_url page_url then info
  else
    let base := [info.selector]
    let element_type := String.mk (pyLower info.etype)
    let selectors :=
      if element_type = "input" then
        if strInLower "search" info.placeholder
            || strInLower "search" info.aria_label
            || strInLower "field-keywords" info.name then
          get_amazon_element_selectors "search_box" ++ base
        else if info.input_type = "submit" then
          if strInLower "search" info.aria_label
              || strInLower "go" info.text then
            get_amazon_element_selectors "search_button" ++ base
          else base
        else base
      else if element_type = "button" then
        if strInLower "add to cart" info.text
            || strContains info.selector "add-to-cart" then
          get_amazon_element_selectors "add_to_cart" ++ base
        else if strInLower "buy now" info.text then
          get_amazon_element_selectors "buy_now" ++ base
        else if strInLower "search" info.aria_label
            || strInLower "go" info.text then
          get_amazon_element_selectors "search_button" ++ base
        else base
      else if element_type = "a" then
        if strContains info.selector "s-result-item" then
          get_amazon_element_selectors "product_link" ++ base
        else base
      else base
    let selectors :=
      match build_xpath_selector info with
      | some xpath => selectors ++ [xpath]
      | none => selectors
    let unique_selectors := dedupSelectors selectors []
    { info with
        selectors := unique_selectors
        selector :=
          match unique_selectors with
          | s :: _ => s
          | [] => info.selector }

/-- `inject_markers` (`vision_utils.py` lines 17-217): run the marker
script, then — on an Amazon URL — re-key the map with
Amazon-enhanced element infos.  (The `except` branch that returns `{}` on
a script failure is an environment failure outside this pure model.) -/
def inject_markers (url : String) (vp : Viewport)
    (elements : List DomElement) : List (Nat × ElementInfo) :=
  let markers_map := injectLoop vp elements [] 1
  if is_amazon_url url then
    markers_map.map
      (fun p => (p.1, enhance_element_with_amazon_selectors p.2 url))
  else markers_map

/-!
## Graph nodes (`agent_nodes.py`) and routing (`agent_graph.py`)

Each node's browser / oracle interactions are supplied by an environment
record; a `some err` failure field stands for the exception the
corresponding Python call would raise, caught by the node's handler.
-/

/-- Environment of `action_node` and the `execute_*` helpers:
`browserFail` is a `get_browser()` failure; `strat1`/`strat2`/`strat3`
are the outcomes of the three escalating click strategies (`none` =
success, `some err` = exception); `typeFail` / `scrollFail` likewise for
the type sequence and the scroll. -/
structure ActEnv where
  browserFail : Option String
  page : PageEnv
  detection : Detection
  strat1 : Option String
  strat2 : Option String
  strat3 : Option String
  typeFail : Option String
  scrollFail : Option String

/-- `get_element_by_marker` as called with Python's possibly-`None`
`action.get("target")`. -/
def resolveTarget (page : PageEnv) (markers_map : List (Nat × ElementInfo))
    (target : Option Nat) : Option String :=
  match target with
  | some t => get_element_by_marker page markers_map t
  | none => none

/-- Python's rendering of the target in f-string messages. -/
def targetStr (target : Option Nat) : String :=
  match target with
  | some n => toString n
  | none => "None"

/-- The element text handed to the Safety Guard by `execute_click`
(`agent_nodes.py` lines 267-268):
`element_info.get('text', '') or element_info.get('aria_label', '')` on
`markers_map.get(target, {})`. -/
def clickElementText (markers_map : List (Nat × ElementInfo))
    (target : Option Nat) : String :=
  let element_info :=
    (match target with
      | some t => lookupMarker markers_map t
      | none => none).getD emptyElementInfo
  if element_info.text ≠ "" then element_info.text
  else element_info.aria_label

/-- The approval-request message recorded by `execute_click`
(`agent_nodes.py` lines 286-291). -/
def approvalRequestMsg (safety_check : Verdict) : String :=
  match safety_check.checkout_info with
  | some checkout_info =>
    "⚠️ APPROVAL REQUIRED\n\n" ++ extract_order_summary checkout_info
  | none => "⚠️ APPROVAL REQUIRED\n\n" ++ safety_check.reason

/-- Outcome of `execute_click`: the updated state, whether the safety
gate was passed so that a click was attempted against the page, and
whether one of the strategies succeeded. -/
structure ClickResult where
  state : AgentState
  attempted : Bool
  succeeded : Bool

/-- `execute_click` (`agent_nodes.py` lines 250-332): resolve the target,
read the element text from the label map, run the Safety Guard; on a
positive verdict set `approval_required`, record the approval-request
message and return without clicking; otherwise try the three click
strategies in order.  All exceptions are absorbed into a failure
message. -/
def execute_click (env : ActEnv) (s : AgentState) (target : Option Nat) :
    ClickResult :=
  match resolveTarget env.page s.markers_map target with
  | none =>
    -- ValueError("Could not find element for marker [...]") raised and
    -- caught by the node's own handler (lines 329-332)
    { state := add_message s ("✗ Failed to click element [" ++ targetStr target
        ++ "]: Could not find element for marker [" ++ targetStr target ++ "]")
      attempted := false
      succeeded := false }
  | some _selector =>
    let safety_check :=
      check_before_click env.detection (clickElementText s.markers_map target)
    if safety_check.requires_approval then
      let s := { s with approval_required := true }
      { state := add_message s (approvalRequestMsg safety_check)
        attempted := false, succeeded := false }
    else
      match env.strat1 with
      | none =>
        { state := add_message s ("✓ Clicked element [" ++ targetStr target ++ "]")
          attempted := true, succeeded := true }
      | some _ =>
        match env.strat2 with
        | none =>
          { state := add_message s ("✓ Clicked element [" ++ targetStr target ++ "]")
            attempted := true, succeeded := true }
        | some _ =>
          match env.strat3 with
          | none =>
            { state := add_message s ("✓ Clicked element [" ++ targetStr target ++ "]")
              attempted := true, succeeded := true }
          | some e3 =>
            { state := add_message s ("✗ Failed to click element ["
                ++ targetStr target ++ "]: " ++ e3)
              attempted := true, succeeded := false }

/-- `execute_type` (`agent_nodes.py` lines 335-381). -/
def execute_type (env : ActEnv) (s : AgentState) (target : Option Nat)
    (value : Option String) : AgentState :=
  match resolveTarget env.page s.markers_map target with
  | none =>
    add_message s ("✗ Failed to type into element [" ++ targetStr target
      ++ "]: Could not find element for marker [" ++ targetStr target ++ "]")
  | some _selector =>
    match env.typeFail with
    | none =>
      add_message s ("✓ Typed '" ++ (value.getD "None") ++ "' into element ["
        ++ targetStr target ++ "] and pressed Enter")
    | some e =>
      add_message s ("✗ Failed to type into element [" ++ targetStr target
        ++ "]: " ++ e)

/-- `execute_scroll` (`agent_nodes.py` lines 384-407). -/
def execute_scroll (env : ActEnv) (s : AgentState) : AgentState :=
  match env.scrollFail with
  | none => add_message s "✓ Scrolled down to see more content"
  | some e => add_message s ("✗ Failed to scroll: " ++ e)

/-- The action-kind dispatch of `action_node` (`agent_nodes.py` lines
210-225). -/
def actionDispatch (env : ActEnv) (s : AgentState) (action : RawAction) :
    AgentState :=
  if action.action == some "click" then
    (execute_click env s action.target).state
  else if action.action == some "type" then
    execute_type env s action.target action.value
  else if action.action == some "scroll" then
    execute_scroll env s
  else if action.action == some "done" then
    set_status s "complete"
  else s

/-- `action_node` (`agent_nodes.py` lines 174-247): dispatch on the
planned action's kind, then append it to history and increment the
iteration counter.  `remove_markers` swallows its own exceptions
(`vision_utils.py` lines 220-235) and does not touch the state, so after
`get_browser()` the node cannot raise. -/
def action_node (env : ActEnv) (s : AgentState) : AgentState :=
  let s := set_status s "executing"
  match env.browserFail with
  | some e => set_error s ("Action execution failed: " ++ e)
  | none =>
    match s.last_action with
    | none => s
    | some action =>
      increment_iteration (add_action (actionDispatch env s action) action)

/-- Environment of `reasoning_node`: a failure before the oracle call
machinery, and the three generate-and-parse attempt outcomes consumed by
`analyze_page`. -/
structure ReasonEnv where
  fail : Option String
  a1 : Except String RawAction
  a2 : Except String RawAction
  a3 : Except String RawAction

/-- `reasoning_node` (`agent_nodes.py` lines 106-171): run the oracle,
store the planned action, record the reasoning message, and mark the
state complete when the action is `done`. -/
def reasoning_node (env : ReasonEnv) (s : AgentState) : AgentState :=
  let s := set_status s "reasoning"
  match env.fail with
  | some e => set_error s ("Reasoning failed: " ++ e)
  | none =>
    let action := analyze_page env.a1 env.a2 env.a3
    let s := { s with last_action := some action }
    let reasoning := action.reasoning.getD "No reasoning provided"
    let action_type := action.action.getD "unknown"
    let tgt := match action.target with
      | some n => toString n
      | none => "N/A"
    let s := add_message s ("Reasoning: " ++ reasoning
      ++ "\nPlanned action: " ++ action_type ++ " on [" ++ tgt ++ "]")
    if action_type == "done" then set_status s "complete" else s

/-- Environment of `observer_node`: the page URL, the label map the
registry build returns, and the screenshot. -/
structure ObsEnv where
  fail : Option String
  url : String
  markers : List (Nat × ElementInfo)
  screenshot : String

/-- `observer_node` (`agent_nodes.py` lines 45-103). -/
def observer_node (env : ObsEnv) (s : AgentState) : AgentState :=
  let s := set_status s "observing"
  match env.fail with
  | some e => set_error s ("Observation failed: " ++ e)
  | none =>
    let s := { s with current_url := env.url }
    let s := { s with markers_map := env.markers }
    let s := { s with screenshot_base64 := env.screenshot }
    add_message s ("Observed page: " ++ env.url ++ ". Found "
      ++ toString env.markers.length ++ " interactive elements.")

/-- The collaborators' behaviour during one observe → reason → act
cycle. -/
structure CycleEnv where
  obs : ObsEnv
  reason : ReasonEnv
  act : ActEnv

/-- One full cycle of the compiled graph (`agent_graph.py` lines 39-53):
observer → reasoning → action, in sequence. -/
def cycle (env : CycleEnv) (s : AgentState) : AgentState :=
  action_node env.act (reasoning_node env.reason (observer_node env.obs s))

/-- States reachable at the graph's conditional edge (just after an
action node): the first cycle runs unconditionally from the entry point,
and a further cycle runs whenever `route_after_action` answered
`"continue"`.  Each cycle may face arbitrary collaborator behaviour. -/
inductive ReachPost (s0 : AgentState) : AgentState → Prop where
  | first (env : CycleEnv) : ReachPost s0 (cycle env s0)
  | next (env : CycleEnv) (s : AgentState) : ReachPost s0 s →
      route_after_action s = "continue" → ReachPost s0 (cycle env s)

/-!
## Theorems
-/

/-- **C5.**  For every verdict produced by `check_before_click`,
`requires_approval` holds iff (the page is classified checkout with
confidence strictly above 0.7 and the element text matches a risk phrase)
or (the element text matches a risk phrase regardless of the page
classification); equivalently, the lexical risk signal alone decides it,
so a checkout classification with non-risky text never requires approval
and a risk-phrase match always does. -/
theorem check_before_click_requires_approval_iff (d : Detection) (t : String) :
    (check_before_click d t).requires_approval
      = ((d.is_checkout && decide (d.confidence > mkRat 7 10))
          && isRiskyElement t || isRiskyElement t)
    ∧ (check_before_click d t).requires_approval = isRiskyElement t := by
  unfold check_before_click
  cases hc : (d.is_checkout && decide (d.confidence > mkRat 7 10)) <;>
    cases hr : isRiskyElement t <;> simp [hc, hr]

/-- **C2.**  Evaluation of the spec's three Safety Guard test cases on the
code: `"Continue shopping"` at checkout confidence 0.9 and `"Buy Now"` at
confidence 0.1 behave as the spec says, but `"Place your order"` at
checkout confidence 0.9 yields `requires_approval = false`, because no
entry of `high_risk_keywords` (in particular `"place order"`) is a
substring of `"place your order"` — contradicting the claimed
`requires_approval = true`. -/
theorem safety_guard_spec_test_cases_eval :
    (check_before_click ⟨true, mkRat 9 10, [], none, ""⟩
        "Place your order").requires_approval = false
    ∧ (check_before_click ⟨true, mkRat 9 10, [], none, ""⟩
        "Continue shopping").requires_approval = false
    ∧ (check_before_click ⟨true, mkRat 1 10, [], none, ""⟩
        "Buy Now").requires_approval = true
    ∧ isRiskyElement "Place your order" = false := by
  decide

/-- **C1.**  Whenever the Safety Guard's verdict for the candidate click
has `requires_approval = true` (and the target did resolve, so the guard
is actually consulted), `execute_click` sets `approval_required` on the
state, records the approval-request message, and returns without
attempting any click strategy against the page. -/
theorem execute_click_blocks_on_required_approval (env : ActEnv)
    (s : AgentState) (target : Option Nat) (sel : String)
    (hres : resolveTarget env.page s.markers_map target = some sel)
    (happ : (check_before_click env.detection
        (clickElementText s.markers_map target)).requires_approval = true) :
    (execute_click env s target).attempted = false
    ∧ (execute_click env s target).succeeded = false
    ∧ (execute_click env s target).state.approval_required = true
    ∧ (execute_click env s target).state.messages
        = s.messages ++ [approvalRequestMsg (check_before_click env.detection
            (clickElementText s.markers_map target))] := by
  unfold execute_click
  rw [hres]
  simp [happ, add_message]

/-- All-yes selector probe: the element exists, is visible and enabled. -/
def probeAll : SelProbe := ⟨true, true, true, true⟩

/-- A label-map entry for a "Buy now" button. -/
def infoBuyNow : ElementInfo :=
  { emptyElementInfo with
      etype := "button", text := "Buy now"
      selector := "#buy", selectors := ["#buy"] }

/-- A one-entry label map holding the "Buy now" button under label 1. -/
def mapBuyNow : List (Nat × ElementInfo) := [(1, infoBuyNow)]

/-- A classifier answer that does not classify the page as checkout. -/
def detectionNone : Detection := ⟨false, 0, [], none, ""⟩

/-- A benign action environment over the "Buy now" page. -/
def envClickW : ActEnv :=
  ⟨none, fun _ => probeAll, detectionNone, none, none, none, none, none⟩

/-- A mission state observing the "Buy now" map. -/
def sClickW : AgentState :=
  { create_initial_state "buy a USB cable" "sess" "" 20 with
      markers_map := mapBuyNow }

/-- Witness for C1: clicking the resolvable "Buy now" element (risk phrase
match, so the guard requires approval) blocks the click and records the
request. -/
theorem execute_click_blocks_on_required_approval_witness :
    (execute_click envClickW sClickW (some 1)).attempted = false
    ∧ (execute_click envClickW sClickW (some 1)).succeeded = false
    ∧ (execute_click envClickW sClickW (some 1)).state.approval_required = true
    ∧ (execute_click envClickW sClickW (some 1)).state.messages
        = sClickW.messages
          ++ [approvalRequestMsg (check_before_click envClickW.detection
              (clickElementText sClickW.markers_map (some 1)))] :=
  execute_click_blocks_on_required_approval envClickW sClickW (some 1) "#buy"
    (by decide) (by decide)

/-- A reasoning environment in which all three oracle attempts fail. -/
def envOracleDown : ReasonEnv :=
  ⟨none, .error "Gemini timeout", .error "Gemini timeout",
    .error "Gemini timeout"⟩

/-- A fresh mission state for the oracle-failure scenario. -/
def sOracleW : AgentState := create_initial_state "buy a USB cable" "sess-2" "" 20

/-- **C3 counterexample.**  When every oracle attempt fails for a cycle,
the mission does not end with `status = error`: `analyze_page` substitutes
the fallback `done` action, and `reasoning_node` marks the mission
`complete` with no error cause recorded. -/
theorem reasoning_oracle_failure_counterexample :
    (reasoning_node envOracleDown sOracleW).status = "complete"
    ∧ ¬ (reasoning_node envOracleDown sOracleW).status = "error"
    ∧ (reasoning_node envOracleDown sOracleW).error = none
    ∧ (reasoning_node envOracleDown sOracleW).last_action
        = some (fallbackDone "Gemini timeout") := by
  decide

/-- **C3 (amended).**  If the Decision Oracle fails for a cycle (all three
attempts error out, whether by timeout, malformed output, or failed
validation), `analyze_page` substitutes the fallback `done` action carrying
the cause in its reasoning text, and `reasoning_node` then terminates the
mission with `status = complete` — not `status = error`; the error field is
left unchanged. -/
theorem reasoning_oracle_failure_amended (env : ReasonEnv) (s : AgentState)
    (e1 e2 e3 : String)
    (hf : env.fail = none)
    (h1 : attemptResult env.a1 = .error e1)
    (h2 : attemptResult env.a2 = .error e2)
    (h3 : attemptResult env.a3 = .error e3) :
    analyze_page env.a1 env.a2 env.a3 = fallbackDone e3
    ∧ (reasoning_node env s).status = "complete"
    ∧ (reasoning_node env s).error = s.error
    ∧ (reasoning_node env s).last_action = some (fallbackDone e3) := by
  have hap : analyze_page env.a1 env.a2 env.a3 = fallbackDone e3 := by
    unfold analyze_page
    rw [h1, h2, h3]
  refine ⟨hap, ?_, ?_, ?_⟩ <;>
  · unfold reasoning_node
    rw [hf]
    simp [hap, fallbackDone, set_status, add_message]

/-- Witness for C3 (amended): the oracle-down environment applied to a
fresh mission state. -/
theorem reasoning_oracle_failure_amended_witness :
    analyze_page envOracleDown.a1 envOracleDown.a2 envOracleDown.a3
        = fallbackDone "Gemini timeout"
    ∧ (reasoning_node envOracleDown sOracleW).status = "complete"
    ∧ (reasoning_node envOracleDown sOracleW).error = sOracleW.error
    ∧ (reasoning_node envOracleDown sOracleW).last_action
        = some (fallbackDone "Gemini timeout") :=
  reasoning_oracle_failure_amended envOracleDown sOracleW
    "Gemini timeout" "Gemini timeout" "Gemini timeout" rfl rfl rfl rfl

/-- `execute_click` touches only the message list and the approval flag:
history, iteration counter, status and iteration bound are unchanged. -/
lemma execute_click_preserves (env : ActEnv) (s : AgentState)
    (t : Option Nat) :
    (execute_click env s t).state.action_history = s.action_history
    ∧ (execute_click env s t).state.iterations = s.iterations
    ∧ (execute_click env s t).state.status = s.status
    ∧ (execute_click env s t).state.max_iterations = s.max_iterations
    ∧ (execute_click env s t).state.error = s.error := by
  unfold execute_click
  cases resolveTarget env.page s.markers_map t
  · simp [add_message]
  · simp only []
    split
    · simp [add_message]
    · cases env.strat1 <;> cases env.strat2 <;> cases env.strat3 <;>
        simp [add_message]

/-- `execute_type` touches only the message list. -/
lemma execute_type_preserves (env : ActEnv) (s : AgentState)
    (t : Option Nat) (v : Option String) :
    (execute_type env s t v).action_history = s.action_history
    ∧ (execute_type env s t v).iterations = s.iterations
    ∧ (execute_type env s t v).status = s.status
    ∧ (execute_type env s t v).max_iterations = s.max_iterations
    ∧ (execute_type env s t v).error = s.error := by
  unfold execute_type
  cases resolveTarget env.page s.markers_map t
  · simp [add_message]
  · cases env.typeFail <;> simp [add_message]

/-- `execute_scroll` touches only the message list. -/
lemma execute_scroll_preserves (env : ActEnv) (s : AgentState) :
    (execute_scroll env s).action_history = s.action_history
    ∧ (execute_scroll env s).iterations = s.iterations
    ∧ (execute_scroll env s).status = s.status
    ∧ (execute_scroll env s).max_iterations = s.max_iterations
    ∧ (execute_scroll env s).error = s.error := by
  unfold execute_scroll
  cases env.scrollFail <;> simp [add_message]

/-- The action dispatch leaves history, iteration counter and bound
unchanged (the `done` branch changes only the status). -/
lemma actionDispatch_preserves (env : ActEnv) (s : AgentState)
    (a : RawAction) :
    (actionDispatch env s a).action_history = s.action_history
    ∧ (actionDispatch env s a).iterations = s.iterations
    ∧ (actionDispatch env s a).max_iterations = s.max_iterations
    ∧ (actionDispatch env s a).error = s.error := by
  unfold actionDispatch
  split
  · exact ⟨(execute_click_preserves env s a.target).1,
      (execute_click_preserves env s a.target).2.1,
      (execute_click_preserves env s a.target).2.2.2.1,
      (execute_click_preserves env s a.target).2.2.2.2⟩
  split
  · exact ⟨(execute_type_preserves env s a.target a.value).1,
      (execute_type_preserves env s a.target a.value).2.1,
      (execute_type_preserves env s a.target a.value).2.2.2.1,
      (execute_type_preserves env s a.target a.value).2.2.2.2⟩
  split
  · exact ⟨(execute_scroll_preserves env s).1,
      (execute_scroll_preserves env s).2.1,
      (execute_scroll_preserves env s).2.2.2.1,
      (execute_scroll_preserves env s).2.2.2.2⟩
  split
  · simp [set_status]
  · simp

/-- Normal form of `action_node` when the browser is available and an
action is planned. -/
lemma action_node_eq (env : ActEnv) (s : AgentState) (a : RawAction)
    (hb : env.browserFail = none) (hl : s.last_action = some a) :
    action_node env s =
      increment_iteration
        (add_action (actionDispatch env (set_status s "executing") a) a) := by
  unfold action_node
  rw [hb]
  simp only [set_status]
  rw [hl]

/-- A `click` action on label 99, with reasoning present. -/
def actClick99 : RawAction :=
  ⟨some "click", some 99, none, some "open the product page"⟩

/-- A state over the one-entry map (label 1 only) with `actClick99`
planned. -/
def sClick99 : AgentState :=
  { create_initial_state "buy a USB cable" "sess-3" "" 20 with
      markers_map := mapBuyNow, last_action := some actClick99 }

/-- **C4 counterexample.**  A `click` on label 99, absent from the
current one-label map, passes `validate_action` (which never consults the
map) and is then handled by `execute_click` as an action-local failure:
no click is attempted, the state stays `executing` with no error, the
action is appended to history, the iteration advances, and the loop
continues — it is not rejected in validation nor treated as a
cycle-fatal decision failure with an oracle retry. -/
theorem validate_accepts_unknown_label_counterexample :
    validate_action actClick99 = true
    ∧ lookupMarker mapBuyNow 99 = none
    ∧ (execute_click envClickW sClick99 (some 99)).attempted = false
    ∧ (action_node envClickW sClick99).status = "executing"
    ∧ (action_node envClickW sClick99).error = none
    ∧ (action_node envClickW sClick99).action_history = [actClick99]
    ∧ (action_node envClickW sClick99).iterations = 1
    ∧ route_after_action (action_node envClickW sClick99) = "continue" := by
  decide

/-- **C4 (amended).**  A `click` whose target label is not a key of the
current label map passes `validate_action` (which checks only field
presence, the kind, and target truthiness — never map membership); at
execution the resolver returns `NotFound`, `execute_click` records a
failure message without attempting any click, and `action_node` absorbs
it as an action-local failure: the action is appended to history, the
iteration counter advances, the status stays `executing` and no error is
set — the oracle is not retried for that cycle. -/
theorem invalid_label_click_is_action_local (env : ActEnv) (s : AgentState)
    (a : RawAction) (t : Nat)
    (hk : a.action = some "click") (ht : a.target = some t) (h0 : t ≠ 0)
    (hr : a.reasoning.isSome = true)
    (hmap : lookupMarker s.markers_map t = none)
    (hb : env.browserFail = none) (hl : s.last_action = some a) :
    validate_action a = true
    ∧ (execute_click env s (some t)).attempted = false
    ∧ (∃ m, (execute_click env s (some t)).state.messages
        = s.messages ++ [m])
    ∧ (action_node env s).status = "executing"
    ∧ (action_node env s).error = s.error
    ∧ (action_node env s).action_history = s.action_history ++ [a]
    ∧ (action_node env s).iterations = s.iterations + 1 := by
  have hres : resolveTarget env.page s.markers_map (some t) = none := by
    unfold resolveTarget get_element_by_marker
    simp [hmap]
  have hval : validate_action a = true := by
    simp [validate_action, hk, ht, hr, truthyTarget, h0]
  have hclick : ∀ s' : AgentState, s'.markers_map = s.markers_map →
      execute_click env s' (some t) =
        ⟨add_message s' ("✗ Failed to click element [" ++ targetStr (some t)
          ++ "]: Could not find element for marker ["
          ++ targetStr (some t) ++ "]"), false, false⟩ := by
    intro s' hmaps
    unfold execute_click
    rw [show resolveTarget env.page s'.markers_map (some t) = none from
      hmaps ▸ hres]
  have hnode := action_node_eq env s a hb hl
  have hdisp : actionDispatch env (set_status s "executing") a =
      (execute_click env (set_status s "executing") a.target).state := by
    unfold actionDispatch
    rw [hk]
    simp
  refine ⟨hval, ?_, ?_, ?_, ?_, ?_, ?_⟩
  · rw [hclick s rfl]
  · exact ⟨"✗ Failed to click element [" ++ targetStr (some t)
      ++ "]: Could not find element for marker [" ++ targetStr (some t)
      ++ "]", by rw [hclick s rfl]; simp [add_message]⟩
  all_goals
    rw [hnode, hdisp, ht, hclick (set_status s "executing") rfl]
    simp [increment_iteration, add_action, add_message, set_status]

/-- Witness for C4 (amended): the concrete label-99 click of the
counterexample scenario, with every hypothesis discharged. -/
theorem invalid_label_click_is_action_local_witness :
    validate_action actClick99 = true
    ∧ (execute_click envClickW sClick99 (some 99)).attempted = false
    ∧ (∃ m, (execute_click envClickW sClick99 (some 99)).state.messages
        = sClick99.messages ++ [m])
    ∧ (action_node envClickW sClick99).status = "executing"
    ∧ (action_node envClickW sClick99).error = sClick99.error
    ∧ (action_node envClickW sClick99).action_history
        = sClick99.action_history ++ [actClick99]
    ∧ (action_node envClickW sClick99).iterations = sClick99.iterations + 1 :=
  invalid_label_click_is_action_local envClickW sClick99 actClick99 99
    rfl rfl (by decide) rfl (by decide) rfl rfl

/-- **C10.**  After every executed action — click (with any strategy
outcomes, including two failed strategies and a forced third), type,
scroll, done, or an unknown kind; success or failure — `action_node`
appends exactly one entry (the action itself) to `action_history` and
increments the iteration counter by exactly 1; failed intermediate click
strategies add no extra history entries. -/
theorem action_node_appends_exactly_one (env : ActEnv) (s : AgentState)
    (a : RawAction)
    (hb : env.browserFail = none) (hl : s.last_action = some a) :
    (action_node env s).action_history = s.action_history ++ [a]
    ∧ (action_node env s).iterations = s.iterations + 1 := by
  rw [action_node_eq env s a hb hl]
  have h := actionDispatch_preserves env (set_status s "executing") a
  constructor
  · simp only [increment_iteration, add_action]
    rw [h.1]
    simp [set_status]
  · simp only [increment_iteration, add_action]
    rw [h.2.1]
    simp [set_status]

/-- A label-map entry for a non-risky "Add to cart" button. -/
def infoAddToCart : ElementInfo :=
  { emptyElementInfo with
      etype := "button", text := "Add to cart"
      selector := "#atc", selectors := ["#atc"] }

/-- A one-entry label map holding the "Add to cart" button. -/
def mapAddToCart : List (Nat × ElementInfo) := [(1, infoAddToCart)]

/-- The spec scenario's environment: the direct click and the JavaScript
click raise, the forced click succeeds. -/
def envForcedClick : ActEnv :=
  ⟨none, fun _ => probeAll, detectionNone,
    some "ElementClickIntercepted", some "Execution context destroyed",
    none, none, none⟩

/-- The planned click on the "Add to cart" element. -/
def actClickCart : RawAction :=
  ⟨some "click", some 1, none, some "add the item to the cart"⟩

/-- A state about to execute `actClickCart`. -/
def sForced : AgentState :=
  { create_initial_state "buy a USB cable" "sess-4" "" 20 with
      markers_map := mapAddToCart, last_action := some actClickCart }

/-- Witness for C10: the two-failed-strategies, forced-success click adds
exactly one history entry and one iteration. -/
theorem action_node_appends_exactly_one_witness :
    (action_node envForcedClick sForced).action_history
        = sForced.action_history ++ [actClickCart]
    ∧ (action_node envForcedClick sForced).iterations
        = sForced.iterations + 1 :=
  action_node_appends_exactly_one envForcedClick sForced actClickCart rfl rfl

/-- `should_stop` is the disjunction of its four early-return
conditions. -/
lemma should_stop_eq_or (s : AgentState) :
    should_stop s
      = (is_complete s || decide (s.iterations ≥ s.max_iterations)
          || (s.status == "error")
          || (s.approval_required && !s.approval_granted)) := by
  unfold should_stop
  cases h1 : is_complete s <;>
    cases h2 : (decide (s.iterations ≥ s.max_iterations) : Bool) <;>
      cases h3 : (s.status == "error" : Bool) <;>
        cases h4 : (s.approval_required && !s.approval_granted) <;>
          simp [h1, h2, h3, h4]

/-- A `"continue"` answer from the router means no stop condition held. -/
lemma route_continue_not_stop (s : AgentState)
    (h : route_after_action s = "continue") : should_stop s = false := by
  unfold route_after_action at h
  cases hs : should_stop s
  · rfl
  · rw [hs] at h
    simp at h

/-- If no stop condition holds, the iteration budget is not exhausted. -/
lemma should_stop_false_lt (s : AgentState) (h : should_stop s = false) :
    s.iterations < s.max_iterations := by
  rw [should_stop_eq_or] at h
  simp only [Bool.or_eq_false_iff, decide_eq_false_iff_not] at h
  omega

/-- `observer_node` never touches the iteration counters. -/
lemma observer_node_counters (env : ObsEnv) (s : AgentState) :
    (observer_node env s).iterations = s.iterations
    ∧ (observer_node env s).max_iterations = s.max_iterations := by
  unfold observer_node
  cases env.fail <;> simp [set_status, set_error, add_message]

/-- `reasoning_node` never touches the iteration counters. -/
lemma reasoning_node_counters (env : ReasonEnv) (s : AgentState) :
    (reasoning_node env s).iterations = s.iterations
    ∧ (reasoning_node env s).max_iterations = s.max_iterations := by
  unfold reasoning_node
  cases env.fail
  · simp only []
    split <;> simp [set_status, set_error, add_message]
  · simp [set_status, set_error]

/-- `action_node` increments the iteration counter by exactly one when it
executes a planned action, and leaves it unchanged otherwise; the bound is
never touched. -/
lemma action_node_counters (env : ActEnv) (s : AgentState) :
    ((action_node env s).iterations = s.iterations + 1
      ∨ (action_node env s).iterations = s.iterations)
    ∧ (action_node env s).max_iterations = s.max_iterations := by
  cases hb : env.browserFail with
  | some e =>
    have heq : action_node env s
        = set_error (set_status s "executing")
            ("Action execution failed: " ++ e) := by
      unfold action_node
      rw [hb]
    rw [heq]
    simp [set_error, set_status]
  | none =>
    cases hl : s.last_action with
    | none =>
      have heq : action_node env s = set_status s "executing" := by
        unfold action_node
        rw [hb]
        simp only [set_status]
        rw [hl]
      rw [heq]
      simp [set_status]
    | some a =>
      rw [action_node_eq env s a hb hl]
      have h := actionDispatch_preserves env (set_status s "executing") a
      constructor
      · left
        simp only [increment_iteration, add_action]
        rw [h.2.1]
        simp [set_status]
      · simp only [increment_iteration, add_action]
        rw [h.2.2.1]
        simp [set_status]

/-- One cycle advances the iteration counter by at most one and preserves
the bound. -/
lemma cycle_counters (env : CycleEnv) (s : AgentState) :
    ((cycle env s).iterations = s.iterations + 1
      ∨ (cycle env s).iterations = s.iterations)
    ∧ (cycle env s).max_iterations = s.max_iterations := by
  unfold cycle
  have ho := observer_node_counters env.obs s
  have hr := reasoning_node_counters env.reason (observer_node env.obs s)
  have ha := action_node_counters env.act
    (reasoning_node env.reason (observer_node env.obs s))
  constructor
  · rcases ha.1 with h | h
    · left
      rw [h, hr.1, ho.1]
    · right
      rw [h, hr.1, ho.1]
  · rw [ha.2, hr.2, ho.2]

/-- **C6 (amended).**  `should_stop` answers true whenever the iteration
counter has reached the bound, and for every mission created with
`iterations = 0` and `max_iterations ≥ 1`, every state reachable at the
loop's routing point satisfies `iterations ≤ max_iterations` (in
particular any stopped state does).  For `max_iterations = 0` the bound
is exceeded, because the stop condition is only consulted after the first
full cycle has executed an action. -/
theorem iteration_bound_amended :
    (∀ s : AgentState, s.max_iterations ≤ s.iterations →
      should_stop s = true)
    ∧ ∀ (goal sid url : String) (M : Nat), 1 ≤ M →
        ∀ s, ReachPost (create_initial_state goal sid url M) s →
          s.iterations ≤ s.max_iterations ∧ s.max_iterations = M := by
  constructor
  · intro s h
    rw [should_stop_eq_or]
    have hd : decide (s.iterations ≥ s.max_iterations) = true := by
      simpa using h
    simp [hd]
  · intro goal sid url M hM s hreach
    induction hreach with
    | first env =>
      have h := cycle_counters env (create_initial_state goal sid url M)
      constructor
      · rcases h.1 with h1 | h1 <;> rw [h1, h.2] <;>
          simp [create_initial_state] <;> omega
      · rw [h.2]
        rfl
    | next env s' _ hcont ih =>
      have h := cycle_counters env s'
      have hlt : s'.iterations < s'.max_iterations :=
        should_stop_false_lt s' (route_continue_not_stop s' hcont)
      constructor
      · rcases h.1 with h1 | h1 <;> rw [h1, h.2] <;> omega
      · rw [h.2]
        exact ih.2

/-- A benign scroll action for concrete loop runs. -/
def actScroll : RawAction :=
  ⟨some "scroll", none, none, some "look further down the page"⟩

/-- A benign observation environment. -/
def benignObs : ObsEnv := ⟨none, "https://example.com/shop", [], "img"⟩

/-- A reasoning environment whose oracle proposes a scroll. -/
def benignReason : ReasonEnv :=
  ⟨none, .ok actScroll, .ok actScroll, .ok actScroll⟩

/-- A benign action environment (everything succeeds). -/
def benignAct : ActEnv :=
  ⟨none, fun _ => probeAll, detectionNone, none, none, none, none, none⟩

/-- A benign cycle environment. -/
def benignCycle : CycleEnv := ⟨benignObs, benignReason, benignAct⟩

/-- A mission created with `max_iterations = 0`. -/
def sZero : AgentState := create_initial_state "buy a USB cable" "sess-5" "" 0

/-- **C6 counterexample.**  With `max_iterations = 0` (allowed by the
claim's "any max_iterations ≥ 0"), the first cycle still runs, so the
loop stops with `iterations = 1 > 0 = max_iterations`: the invariant
`iterations ≤ max_iterations` fails in the stopped state. -/
theorem iteration_bound_counterexample :
    ReachPost sZero (cycle benignCycle sZero)
    ∧ (cycle benignCycle sZero).iterations = 1
    ∧ (cycle benignCycle sZero).max_iterations = 0
    ∧ route_after_action (cycle benignCycle sZero) = "end"
    ∧ (cycle benignCycle sZero).max_iterations
        < (cycle benignCycle sZero).iterations :=
  ⟨ReachPost.first benignCycle, by decide, by decide, by decide, by decide⟩

/-- A mission created with `max_iterations = 1`. -/
def sOne : AgentState := create_initial_state "buy a USB cable" "sess-6" "" 1

/-- Witness for C6 (amended): at the bound `should_stop` fires, and the
state after the first cycle of a `max_iterations = 1` mission respects
the invariant. -/
theorem iteration_bound_amended_witness :
    should_stop sZero = true
    ∧ ((cycle benignCycle sOne).iterations
          ≤ (cycle benignCycle sOne).max_iterations
        ∧ (cycle benignCycle sOne).max_iterations = 1) :=
  ⟨iteration_bound_amended.1 sZero (by decide),
   iteration_bound_amended.2 "buy a USB cable" "sess-6" "" 1 (by decide) _
     (ReachPost.first benignCycle)⟩

/-- An element registered with two candidate selectors. -/
def infoTwoSel : ElementInfo :=
  { emptyElementInfo with selector := "#a", selectors := ["#a", "#b"] }

/-- A one-entry map holding `infoTwoSel` under label 1. -/
def mapTwoSel : List (Nat × ElementInfo) := [(1, infoTwoSel)]

/-- A page on which `#a` matches nothing while `#b` matches an existing
but invisible, disabled element. -/
def pageHiddenB : PageEnv := fun sel =>
  if sel = "#b" then ⟨false, true, false, false⟩
  else ⟨false, false, false, false⟩

/-- **C7 counterexample.**  Candidate `#b` matches an existing element
(merely not visible), yet the resolver returns `NotFound`: the final
best-effort pass re-probes only the first candidate `#a`, whose element
does not exist, instead of "the first selector for which the element
exists at all". -/
theorem resolver_best_effort_counterexample :
    get_element_by_marker pageHiddenB mapTwoSel 1 = none
    ∧ (pageHiddenB "#b").present = true
    ∧ "#b" ∈ infoTwoSel.selectors := by
  refine ⟨by decide, by decide, by decide⟩

/-- **C7 (amended).**  For a label present in the map whose filtered
candidate list is non-empty, the resolver returns `NotFound` iff the main
strict pass rejects every candidate and the *first* candidate's element
does not exist: the best-effort pass re-probes only `selectors[0]`, so
whenever the first candidate's element exists the resolver returns a
selector, but an existing element reachable only through a later
candidate does not prevent `NotFound`. -/
theorem resolver_notfound_characterization (env : PageEnv)
    (markers_map : List (Nat × ElementInfo)) (marker : Nat)
    (info : ElementInfo) (first : String) (rest : List String)
    (hlook : lookupMarker markers_map marker = some info)
    (hsel : (if info.selectors.isEmpty then [info.selector]
        else info.selectors).filter (fun s => s ≠ "") = first :: rest) :
    get_element_by_marker env markers_map marker = none
      ↔ firstPassing env (first :: rest) = none
        ∧ (env first).present = false := by
  unfold get_element_by_marker
  rw [hlook]
  simp only []
  rw [hsel]
  simp only []
  cases hfp : firstPassing env (first :: rest) with
  | some sel => simp [hfp]
  | none =>
    cases hp : (env first).present <;> simp [hfp, hp]

/-- Witness for C7 (amended): the two-candidate map of the counterexample
scenario. -/
theorem resolver_notfound_characterization_witness :
    get_element_by_marker pageHiddenB mapTwoSel 1 = none
      ↔ firstPassing pageHiddenB ["#a", "#b"] = none
        ∧ (pageHiddenB "#a").present = false :=
  resolver_notfound_characterization pageHiddenB mapTwoSel 1 infoTwoSel
    "#a" ["#b"] (by decide) (by decide)

/-- The main pass only answers with a member of the probed list. -/
lemma firstPassing_mem (env : PageEnv) :
    ∀ (l : List String) (sel : String),
      firstPassing env l = some sel → sel ∈ l := by
  intro l
  induction l with
  | nil =>
    intro sel h
    simp [firstPassing] at h
  | cons a rest ih =>
    intro sel h
    simp only [firstPassing] at h
    split at h
    · injection h with h'
      subst h'
      exact List.mem_cons_self a rest
    · exact List.mem_cons_of_mem a (ih sel h)

/-- **C8.**  Any selector the resolver returns for a label was recorded
for that label at registry-build time: it is a member of the stored
candidate-selector list (`selectors`), or — through the code's fallback
when that list is empty — the stored primary `selector` field; the
resolver never fabricates a selector. -/
theorem resolver_returns_recorded (env : PageEnv)
    (markers_map : List (Nat × ElementInfo)) (marker : Nat) (sel : String)
    (h : get_element_by_marker env markers_map marker = some sel) :
    ∃ info, lookupMarker markers_map marker = some info
      ∧ sel ∈ info.selector :: info.selectors := by
  unfold get_element_by_marker at h
  cases hlook : lookupMarker markers_map marker with
  | none =>
    rw [hlook] at h
    exact absurd h (by simp)
  | some info =>
    rw [hlook] at h
    simp only [] at h
    refine ⟨info, rfl, ?_⟩
    have hmem : ∀ x : String,
        x ∈ (if info.selectors.isEmpty then [info.selector]
            else info.selectors).filter (fun s => s ≠ "") →
        x ∈ info.selector :: info.selectors := by
      intro x hx
      have hx' := List.mem_of_mem_filter hx
      by_cases he : info.selectors.isEmpty
      · rw [if_pos he] at hx'
        simp at hx'
        simp [hx']
      · rw [if_neg he] at hx'
        exact List.mem_cons_of_mem _ hx'
    cases hf : (if info.selectors.isEmpty then [info.selector]
        else info.selectors).filter (fun s => s ≠ "") with
    | nil =>
      rw [hf] at h
      exact absurd h (by simp)
    | cons first rest =>
      rw [hf] at h
      simp only [] at h
      cases hfp : firstPassing env (first :: rest) with
      | some s =>
        rw [hfp] at h
        injection h with h'
        subst h'
        refine hmem _ ?_
        rw [hf]
        exact firstPassing_mem env (first :: rest) _ hfp
      | none =>
        rw [hfp] at h
        simp only [] at h
        split at h
        · injection h with h'
          subst h'
          refine hmem _ ?_
          rw [hf]
          exact List.mem_cons_self _ _
        · exact absurd h (by simp)

/-- Witness for C8: on the "Buy now" map every probe passes and the
resolver answers `#buy`, which is indeed recorded for label 1. -/
theorem resolver_returns_recorded_witness :
    ∃ info, lookupMarker mapBuyNow 1 = some info
      ∧ "#buy" ∈ info.selector :: info.selectors :=
  resolver_returns_recorded (fun _ => probeAll) mapBuyNow 1 "#buy" (by decide)

/-- Consecutive numbering of a list starting at `n`: the
specification-side companion of the marker-number assignment. -/
def labelize : Nat → List ElementInfo → List (Nat × ElementInfo)
  | _, [] => []
  | n, i :: is => (n, i) :: labelize (n + 1) is

/-- The marker loop is exactly consecutive numbering of the accepted
elements' infos. -/
lemma injectLoop_eq_labelize (vp : Viewport) :
    ∀ (l : List DomElement) (processed : List Nat) (n : Nat),
      injectLoop vp l processed n
        = labelize n ((acceptedElems vp l processed).map (buildInfo vp)) := by
  intro l
  induction l with
  | nil =>
    intro processed n
    rfl
  | cons e rest ih =>
    intro processed n
    unfold injectLoop acceptedElems
    by_cases hp : e.eid ∈ processed
    · rw [if_pos hp, if_pos hp]
      exact ih processed n
    · rw [if_neg hp, if_neg hp]
      by_cases hv : isVisible vp e = true
      · rw [if_pos hv, if_pos hv]
        simp only [List.map_cons, labelize]
        rw [ih (e.eid :: processed) (n + 1)]
      · rw [if_neg hv, if_neg hv]
        exact ih processed n

/-- Numbering from `n` yields the keys `n, n+1, …`, the values unchanged,
and the same length. -/
lemma labelize_facts : ∀ (l : List ElementInfo) (n : Nat),
    (labelize n l).map Prod.fst = List.range' n l.length
    ∧ (labelize n l).map Prod.snd = l
    ∧ (labelize n l).length = l.length := by
  intro l
  induction l with
  | nil =>
    intro n
    simp [labelize]
  | cons x xs ih =>
    intro n
    refine ⟨?_, ?_, ?_⟩ <;>
      simp [labelize, List.range'_succ, (ih (n + 1)).1, (ih (n + 1)).2.1,
        (ih (n + 1)).2.2]

/-- Re-keying the values of a pair list keeps the keys. -/
lemma map_rekey_fst (g : ElementInfo → ElementInfo)
    (l : List (Nat × ElementInfo)) :
    (l.map (fun p => (p.1, g p.2))).map Prod.fst = l.map Prod.fst := by
  induction l with
  | nil => rfl
  | cons x xs ih => simp [ih]

/-- Re-keying the values of a pair list maps the values. -/
lemma map_rekey_snd (g : ElementInfo → ElementInfo)
    (l : List (Nat × ElementInfo)) :
    (l.map (fun p => (p.1, g p.2))).map Prod.snd
      = (l.map Prod.snd).map g := by
  induction l with
  | nil => rfl
  | cons x xs ih => simp [ih]

/-- **C9.**  Every label map produced by one registry build carries the
labels `1..N` exactly, in order — a dense integer sequence with no gaps
and no duplicates — and its values are the element infos of the accepted
(interactive, visible, not yet processed) elements in DOM traversal
order, Amazon-enhanced exactly when the URL is an Amazon domain. -/
theorem inject_markers_labels_dense (url : String) (vp : Viewport)
    (elements : List DomElement) :
    (inject_markers url vp elements).map Prod.fst
      = List.range' 1 (inject_markers url vp elements).length
    ∧ (inject_markers url vp elements).map Prod.snd
      = (acceptedElems vp elements []).map (fun e =>
          if is_amazon_url url then
            enhance_element_with_amazon_selectors (buildInfo vp e) url
          else buildInfo vp e) := by
  unfold inject_markers
  rw [injectLoop_eq_labelize]
  have hfacts := labelize_facts
    ((acceptedElems vp elements []).map (buildInfo vp)) 1
  by_cases ha : is_amazon_url url = true
  · rw [if_pos ha]
    constructor
    · rw [map_rekey_fst (fun i => enhance_element_with_amazon_selectors i url),
        List.length_map, hfacts.1, hfacts.2.2]
    · rw [map_rekey_snd (fun i => enhance_element_with_amazon_selectors i url),
        hfacts.2.1, List.map_map]
      apply List.map_congr_left
      intro e _
      simp [ha]
  · rw [if_neg ha]
    have ha' : is_amazon_url url = false := Bool.eq_false_iff.mpr ha
    constructor
    · rw [hfacts.1, hfacts.2.2]
    · rw [hfacts.2.1]
      apply List.map_congr_left
      intro e _
      simp [ha']

end SmartCart
